import Mathlib

/-!
Verification of the `mlr_py` player protocol library
(`src/mlr_py/src/mlr_py/api.py`) against its specification.

Embedding conventions:
* Python values parsed from JSON text (the output of `json.loads`) are
  modelled by the inductive `Json` below. JSON numbers are modelled as
  integers (`Int`); every number appearing in the protocol is integral.
* Python subscripting `j[k]` / `j[i]` is modelled by `Json.getField` /
  `Json.getIdx`, returning `Except DecodeError` — an `error` result models
  the Python exception (`KeyError` / `IndexError` / `TypeError`) that
  propagates out of the decoder. The spec groups all of these under the
  name `MalformedInput`.
* Protocol fields the library treats as integers (`player_id`, `turn`,
  unit `id` and `player`, coordinates) are typed `Int` in the model; a
  wire value of a different shape at those positions is a decode error.
* `json.dumps` with its default arguments (separators `", "` and `": "`,
  insertion-ordered keys) is modelled by `Json.dumps`.
* A line of standard input is modelled as `Option Json`: `some j` is a
  line that `json.loads` parses to `j`, `none` a line that is not valid
  JSON (on which `json.loads` raises, modelled as `DecodeError.invalidJson`).
-/

namespace MLR

/-- The JSON value universe produced by `json.loads` (numbers restricted
to integers, which covers every protocol field). -/
inductive Json where
  | null : Json
  | bool (b : Bool) : Json
  | num (n : Int) : Json
  | str (s : String) : Json
  | arr (elems : List Json) : Json
  | obj (fields : List (String × Json)) : Json

/-- The Python exceptions a decoder can raise, plus the failure of
`json.loads` itself; the spec calls all of these `MalformedInput`. -/
inductive DecodeError where
  | keyError (k : String) : DecodeError
  | indexError (i : Nat) : DecodeError
  | typeError : DecodeError
  | invalidJson : DecodeError
deriving DecidableEq

/-- Python `j[k]` for a string key: succeeds on an object containing the
key, raises `KeyError` on an object without it, `TypeError` otherwise. -/
def Json.getField : Json → String → Except DecodeError Json
  | .obj fs, k =>
    match fs.lookup k with
    | some v => .ok v
    | none => .error (.keyError k)
  | _, _ => .error .typeError

/-- Python `j[i]` for a non-negative integer index: succeeds on an array
that is long enough, raises `IndexError` on a short array, and fails on
an object (`KeyError` on an integer key, modelled as `typeError` along
with the other non-array cases). -/
def Json.getIdx : Json → Nat → Except DecodeError Json
  | .arr xs, i =>
    match xs.get? i with
    | some v => .ok v
    | none => .error (.indexError i)
  | _, _ => .error .typeError

/-- Python truthiness of a JSON value (`bool(x)`): `None`, `False`, `0`,
`""`, `[]` and `{}` are falsy, everything else truthy. -/
def Json.isTruthy : Json → Bool
  | .null => false
  | .bool b => b
  | .num n => n != 0
  | .str s => !s.isEmpty
  | .arr xs => !xs.isEmpty
  | .obj fs => !fs.isEmpty

/-- String escaping as performed by `json.dumps` (the protocol only ever
serializes short ASCII tag strings; the common escapes suffice). -/
def jsonEscapeChar (c : Char) : String :=
  if c = '"' then "\\\""
  else if c = '\\' then "\\\\"
  else if c = '\n' then "\\n"
  else if c = '\t' then "\\t"
  else if c = '\r' then "\\r"
  else String.singleton c

def jsonEscape (s : String) : String :=
  String.join (s.data.map jsonEscapeChar)

mutual

/-- Python `json.dumps` with default arguments: item separator `", "`,
key separator `": "`, keys in insertion order. -/
def Json.dumps : Json → String
  | .null => "null"
  | .bool true => "true"
  | .bool false => "false"
  | .num n => toString n
  | .str s => "\"" ++ jsonEscape s ++ "\""
  | .arr xs => "[" ++ Json.dumpsElems xs ++ "]"
  | .obj fs => "\x7b" ++ Json.dumpsFields fs ++ "\x7d"

def Json.dumpsElems : List Json → String
  | [] => ""
  | [x] => Json.dumps x
  | x :: y :: xs => Json.dumps x ++ ", " ++ Json.dumpsElems (y :: xs)

def Json.dumpsFields : List (String × Json) → String
  | [] => ""
  | [(k, v)] => "\"" ++ jsonEscape k ++ "\": " ++ Json.dumps v
  | (k, v) :: f :: fs =>
    "\"" ++ jsonEscape k ++ "\": " ++ Json.dumps v ++ ", " ++ Json.dumpsFields (f :: fs)

end

/-! ## Data model (`api.py` classes) -/

/-- `class TileType(Enum)`: the type that a tile can be. -/
inductive TileType where
  | WALL : TileType
  | FLOOR : TileType
  | EXIT : TileType
deriving DecidableEq

/-- The `.value` of each `TileType` member (`"wall"`, `"floor"`, `"exit"`). -/
def TileType.value : TileType → String
  | .WALL => "wall"
  | .FLOOR => "floor"
  | .EXIT => "exit"

/-- `class Direction(Enum)`: the directions that a bot can move. -/
inductive Direction where
  | LEFT : Direction
  | RIGHT : Direction
  | UP : Direction
  | DOWN : Direction
deriving DecidableEq

/-- The `.value` of each `Direction` member. -/
def Direction.value : Direction → String
  | .LEFT => "left"
  | .RIGHT => "right"
  | .UP => "up"
  | .DOWN => "down"

/-- `class ActionType(Enum)`: the type of actions that a player can take. -/
inductive ActionType where
  | MOVE : ActionType
deriving DecidableEq

/-- The `.value` of each `ActionType` member. -/
def ActionType.value : ActionType → String
  | .MOVE => "move"

/-- `class Coord`: coordinate in the world. -/
structure Coord where
  x : Int
  y : Int
deriving DecidableEq

/-- `class Tile`: a tile in the map. -/
structure Tile where
  tile_type : TileType
  coord : Coord
deriving DecidableEq

/-- `class Unit`: a unit in the world corresponding to a player. -/
structure Unit where
  id : Int
  player : Int
  location : Coord
deriving DecidableEq

/-- `class PlayerWorld`: the entire world that the player knows. -/
structure PlayerWorld where
  units : List Unit
  tiles : List Tile
deriving DecidableEq

/-- `class PlayerInput`: the input that the player receives. `memory` is
an arbitrary JSON value, stored untouched. -/
structure PlayerInput where
  player_id : Int
  turn : Int
  player_world : PlayerWorld
  memory : Json

/-- `class PlayerAction`: the action that a player can take
(`__init__(self, unit_id, dir, type=ActionType.MOVE)`). -/
structure PlayerAction where
  unit_id : Int
  direction : Direction
  type : ActionType
deriving DecidableEq

/-- `class PlayerOutput`: the output that has to be sent back. The stored
`memory` is whatever `__init__` decided to keep. -/
structure PlayerOutput where
  actions : List PlayerAction
  memory : Json

/-- `PlayerOutput.__init__(self, actions, memory=None)` assigns
`self.memory = memory if memory else {}`: a falsy `memory` argument
(including the `None` default) is replaced by an empty dict. -/
def PlayerOutput.init (actions : List PlayerAction) (memory : Json) : PlayerOutput :=
  { actions := actions
    memory := if memory.isTruthy then memory else .obj [] }

/-! ## Encoding (`serialize` / `to_json`) -/

/-- `PlayerAction.serialize`: the dict
`{"action": type.value, "unit": unit_id, "direction": direction.value}`. -/
def PlayerAction.serialize (a : PlayerAction) : Json :=
  .obj [("action", .str a.type.value),
        ("unit", .num a.unit_id),
        ("direction", .str a.direction.value)]

/-- `PlayerOutput.to_json`: `json.dumps` of
`{"actions": [a.serialize() for a in actions], "memory": memory}`. -/
def PlayerOutput.to_json (o : PlayerOutput) : String :=
  Json.dumps (.obj [("actions", .arr (o.actions.map PlayerAction.serialize)),
                    ("memory", o.memory)])

/-! ## Decoding (`from_json` staticmethods)

Each decoder is written as an explicit match on the result of every
subscript access, mirroring how a raised Python exception aborts the rest
of the decode. -/

/-- `TileType.from_json`: reads `json["type"]` and compares it against the
three known tags; ANY other value (including non-strings) falls through to
`TileType.WALL`. Comparison of a Python value with a string literal is
true only for the equal string, which `eqTag` captures. -/
def Json.eqTag (j : Json) (tag : String) : Bool :=
  match j with
  | .str s => s == tag
  | _ => false

def TileType.from_json (j : Json) : Except DecodeError TileType :=
  match j.getField "type" with
  | .error e => .error e
  | .ok t =>
    if t.eqTag "wall" then .ok .WALL
    else if t.eqTag "floor" then .ok .FLOOR
    else if t.eqTag "exit" then .ok .EXIT
    else .ok .WALL

/-- `Coord.from_json`: `Coord(json[0], json[1])` — a fixed 2-element
positional array, evaluated left to right; the elements must be numbers
for the typed model (Python would store them unchecked). -/
def Coord.from_json (j : Json) : Except DecodeError Coord :=
  match j.getIdx 0 with
  | .error e => .error e
  | .ok a =>
    match j.getIdx 1 with
    | .error e => .error e
    | .ok b =>
      match a, b with
      | .num x, .num y => .ok ⟨x, y⟩
      | _, _ => .error .typeError

/-- `Tile.from_json`: `Tile(TileType.from_json(json), Coord.from_json(json["coord"]))`,
arguments evaluated left to right. -/
def Tile.from_json (j : Json) : Except DecodeError Tile :=
  match TileType.from_json j with
  | .error e => .error e
  | .ok tt =>
    match j.getField "coord" with
    | .error e => .error e
    | .ok cj =>
      match Coord.from_json cj with
      | .error e => .error e
      | .ok c => .ok ⟨tt, c⟩

/-- A wire value at an integer-typed position. -/
def Json.asInt : Json → Except DecodeError Int
  | .num n => .ok n
  | _ => .error .typeError

/-- The loop body of `PlayerWorld.from_json` for one unit:
`Unit(u["id"], u["player"], Coord.from_json(u["location"]))`. -/
def PlayerWorld.decodeUnit (u : Json) : Except DecodeError Unit :=
  match u.getField "id" with
  | .error e => .error e
  | .ok idj =>
    match idj.asInt with
    | .error e => .error e
    | .ok id =>
      match u.getField "player" with
      | .error e => .error e
      | .ok pj =>
        match pj.asInt with
        | .error e => .error e
        | .ok p =>
          match u.getField "location" with
          | .error e => .error e
          | .ok lj =>
            match Coord.from_json lj with
            | .error e => .error e
            | .ok loc => .ok ⟨id, p, loc⟩

/-- The Python `for x in xs: acc.append(f(x))` accumulation pattern used by
`PlayerWorld.from_json`: decode each element in order, aborting at the
first raised exception. -/
def decodeEach {α : Type} (f : Json → Except DecodeError α) :
    List Json → Except DecodeError (List α)
  | [] => .ok []
  | x :: xs =>
    match f x with
    | .error e => .error e
    | .ok a =>
      match decodeEach f xs with
      | .error e => .error e
      | .ok as => .ok (a :: as)

/-- Iterating a Python value with `for`: only an array iterates over its
elements in the model (iterating a dict or string is outside the protocol's
wire shapes and is modelled as a `TypeError`). -/
def Json.asArr : Json → Except DecodeError (List Json)
  | .arr xs => .ok xs
  | _ => .error .typeError

/-- `PlayerWorld.from_json`: decodes `json["units"]` then `json["tiles"]`,
each a list processed front to back. -/
def PlayerWorld.from_json (j : Json) : Except DecodeError PlayerWorld :=
  match j.getField "units" with
  | .error e => .error e
  | .ok usj =>
    match usj.asArr with
    | .error e => .error e
    | .ok us =>
      match decodeEach PlayerWorld.decodeUnit us with
      | .error e => .error e
      | .ok units =>
        match j.getField "tiles" with
        | .error e => .error e
        | .ok tsj =>
          match tsj.asArr with
          | .error e => .error e
          | .ok ts =>
            match decodeEach Tile.from_json ts with
            | .error e => .error e
            | .ok tiles => .ok ⟨units, tiles⟩

/-- `PlayerInput.from_json`: reads `json["player_id"]`, `json["turn"]`,
`PlayerWorld.from_json(json["world"])` and `json["memory"]` in order. -/
def PlayerInput.from_json (j : Json) : Except DecodeError PlayerInput :=
  match j.getField "player_id" with
  | .error e => .error e
  | .ok pidj =>
    match pidj.asInt with
    | .error e => .error e
    | .ok pid =>
      match j.getField "turn" with
      | .error e => .error e
      | .ok tj =>
        match tj.asInt with
        | .error e => .error e
        | .ok t =>
          match j.getField "world" with
          | .error e => .error e
          | .ok wj =>
            match PlayerWorld.from_json wj with
            | .error e => .error e
            | .ok w =>
              match j.getField "memory" with
              | .error e => .error e
              | .ok mem => .ok ⟨pid, t, w, mem⟩

/-- Module-level `from_json`: create the structures from json. -/
def from_json (j : Json) : Except DecodeError PlayerInput :=
  PlayerInput.from_json j

/-! ## Derived queries -/

/-- `PlayerWorld.get_units_for`: `[u for u in self.units if u.id == player_id]`.
NOTE: the source compares the unit's `id` — not its `player` field —
against `player_id`; the comparison is kept exactly as written. -/
def PlayerWorld.get_units_for (w : PlayerWorld) (player_id : Int) : List Unit :=
  w.units.filter (fun u => u.id == player_id)

/-- `PlayerInput.get_my_units`: get your own units. -/
def PlayerInput.get_my_units (i : PlayerInput) : List Unit :=
  i.player_world.get_units_for i.player_id

/-! ## Debug rendering (`__repr__` methods, used only when `debug=True`)

Python's `print(f"{x}")` renders `x` via `str`/`repr`; the methods below
are the `__repr__` implementations of `api.py`, including the slip in
`Unit.__repr__` which prints `player={self.id}`. -/

mutual

/-- Python `repr` of a value parsed from JSON (`None`, `True`/`False`,
numbers, single-quoted strings, `[...]` lists, `{'k': v}` dicts). String
escaping is omitted: protocol strings are plain. -/
def pyRepr : Json → String
  | .null => "None"
  | .bool true => "True"
  | .bool false => "False"
  | .num n => toString n
  | .str s => "'" ++ s ++ "'"
  | .arr xs => "[" ++ pyReprElems xs ++ "]"
  | .obj fs => "\x7b" ++ pyReprFields fs ++ "\x7d"

def pyReprElems : List Json → String
  | [] => ""
  | [x] => pyRepr x
  | x :: y :: xs => pyRepr x ++ ", " ++ pyReprElems (y :: xs)

def pyReprFields : List (String × Json) → String
  | [] => ""
  | [(k, v)] => "'" ++ k ++ "': " ++ pyRepr v
  | (k, v) :: f :: fs => "'" ++ k ++ "': " ++ pyRepr v ++ ", " ++ pyReprFields (f :: fs)

end

/-- Python `str()` of a `TileType` member, as rendered inside an f-string
(`TileType.WALL` etc.). -/
def TileType.pyStr : TileType → String
  | .WALL => "TileType.WALL"
  | .FLOOR => "TileType.FLOOR"
  | .EXIT => "TileType.EXIT"

/-- `Coord.__repr__`: `f"Coord({self.x}, {self.y})"`. -/
def Coord.pyRepr (c : Coord) : String :=
  "Coord(" ++ toString c.x ++ ", " ++ toString c.y ++ ")"

/-- `Tile.__repr__`: `f"Tile({self.tile_type}, {self.coord})"`. -/
def Tile.pyRepr (t : Tile) : String :=
  "Tile(" ++ t.tile_type.pyStr ++ ", " ++ t.coord.pyRepr ++ ")"

/-- `Unit.__repr__`: `f"Unit(id={self.id}, player={self.id}, location={self.location})"`
(the source really interpolates `self.id` for `player`). -/
def Unit.pyRepr (u : Unit) : String :=
  "Unit(id=" ++ toString u.id ++ ", player=" ++ toString u.id ++
    ", location=" ++ u.location.pyRepr ++ ")"

/-- Python `repr` of a list of objects: `[r1, r2, ...]`. -/
def listPyRepr {α : Type} (f : α → String) (xs : List α) : String :=
  "[" ++ String.intercalate ", " (xs.map f) ++ "]"

/-- `PlayerWorld.__repr__`. -/
def PlayerWorld.pyRepr (w : PlayerWorld) : String :=
  "PlayerWorld(units=" ++ listPyRepr Unit.pyRepr w.units ++
    ", tiles=" ++ listPyRepr Tile.pyRepr w.tiles ++ ")"

/-- `PlayerInput.__repr__`. -/
def PlayerInput.pyRepr (i : PlayerInput) : String :=
  "PlayerInput(player_id=" ++ toString i.player_id ++
    ", turn=" ++ toString i.turn ++
    ", player_world=" ++ i.player_world.pyRepr ++
    ", memory=" ++ MLR.pyRepr i.memory ++ ")"

/-! ## Session driver (`do_turn`) -/

/-- The fixed sentinel literal that prefixes the protocol output line. -/
def sentinel : String :=
  "__mlr_output:"

/-- `json.loads(line)`: a line of input either parses to a JSON value or
raises (`none`), which propagates as a decode failure. -/
def jsonLoads : Option Json → Except DecodeError Json
  | some j => .ok j
  | none => .error .invalidJson

/-- The spec's `decode(line) -> PlayerInput` contract, as realised by the
driver: `from_json(json.loads(line))`. -/
def decode (line : Option Json) : Except DecodeError PlayerInput :=
  match jsonLoads line with
  | .error e => .error e
  | .ok j => from_json j

/-- `do_turn(turn_function, debug=False)`: iterate over standard input,
decode the first line, call the turn function, print the sentinel-prefixed
encoded output, and `break`. When `debug` is set, the decoded input's repr
and the encoded output are additionally printed (before the sentinel line).
The result is the list of lines written to standard output; a raised
exception is an `error`, and an empty input stream produces no output. -/
def do_turn (turn_function : PlayerInput → PlayerOutput) (debug : Bool) :
    List (Option Json) → Except DecodeError (List String)
  | [] => .ok []
  | line :: _ =>
    match decode line with
    | .error e => .error e
    | .ok player_input =>
      let player_output := turn_function player_input
      .ok ((if debug then [player_input.pyRepr] else []) ++
           (if debug then [player_output.to_json] else []) ++
           [sentinel ++ player_output.to_json])

/-- A stdout line carrying protocol output: one starting with the sentinel
(prefix comparison at the character-list level). -/
def isProtocolLine (l : String) : Bool :=
  sentinel.data.isPrefixOf l.data

/-- The `turn` function of `example_player.py`, specialised to always pick
`Direction.LEFT` (the C4 scenario's "move every owned unit Left"):
one `PlayerAction(u.id, LEFT)` per unit of `get_my_units()`, wrapped in
`PlayerOutput(actions)` whose `memory` argument defaults to `None`. -/
def moveLeftTurn (input : PlayerInput) : PlayerOutput :=
  PlayerOutput.init (input.get_my_units.map (fun u => ⟨u.id, .LEFT, .MOVE⟩)) .null

/-! ## Concrete protocol fixtures -/

/-- The parsed inbound line of the spec's end-to-end scenario:
`{"player_id":1,"turn":0,"world":{"units":[{"id":5,"player":1,"location":[0,0]}],
"tiles":[{"type":"floor","coord":[0,0]}]},"memory":null}`. -/
def exampleInputLine : Json :=
  .obj [("player_id", .num 1), ("turn", .num 0),
        ("world", .obj [("units", .arr [.obj [("id", .num 5), ("player", .num 1),
                                              ("location", .arr [.num 0, .num 0])]]),
                        ("tiles", .arr [.obj [("type", .str "floor"),
                                              ("coord", .arr [.num 0, .num 0])]])]),
        ("memory", .null)]

/-- The `PlayerInput` that `from_json` produces for `exampleInputLine`. -/
def exampleDecodedInput : PlayerInput :=
  { player_id := 1
    turn := 0
    player_world := { units := [⟨5, 1, ⟨0, 0⟩⟩], tiles := [⟨.FLOOR, ⟨0, 0⟩⟩] }
    memory := .null }

/-! ## Helper lemmas -/

theorem getField_obj_ok {fs : List (String × Json)} {k : String} {v : Json}
    (h : fs.lookup k = some v) : Json.getField (.obj fs) k = .ok v := by
  simp [Json.getField, h]

theorem getField_ok_lookup {fs : List (String × Json)} {k : String} {v : Json}
    (h : Json.getField (.obj fs) k = .ok v) : fs.lookup k = some v := by
  simp only [Json.getField] at h
  cases hl : fs.lookup k with
  | none => rw [hl] at h; exact absurd h (by simp)
  | some w => rw [hl] at h; cases h; rfl

theorem asInt_ok {j : Json} {n : Int} (h : j.asInt = .ok n) : j = .num n := by
  cases j <;> simp [Json.asInt] at h
  rw [h]

theorem asArr_ok {j : Json} {xs : List Json} (h : j.asArr = .ok xs) : j = .arr xs := by
  cases j <;> simp [Json.asArr] at h
  rw [h]

theorem coord_from_json_ok {j : Json} {c : Coord} (h : Coord.from_json j = .ok c) :
    j.getIdx 0 = .ok (.num c.x) ∧ j.getIdx 1 = .ok (.num c.y) := by
  unfold Coord.from_json at h
  split at h
  · exact absurd h (by simp)
  · rename_i a ha
    split at h
    · exact absurd h (by simp)
    · rename_i b hb
      split at h
      · rename_i x y hxy
        cases h
        exact ⟨ha, hb⟩
      · exact absurd h (by simp)

theorem decodeUnit_ok {j : Json} {u : Unit} (h : PlayerWorld.decodeUnit j = .ok u) :
    ∃ fs, j = .obj fs ∧
      fs.lookup "id" = some (.num u.id) ∧
      fs.lookup "player" = some (.num u.player) ∧
      ∃ lj, fs.lookup "location" = some lj ∧ Coord.from_json lj = .ok u.location := by
  unfold PlayerWorld.decodeUnit at h
  split at h
  · exact absurd h (by simp)
  · rename_i idj hid
    split at h
    · exact absurd h (by simp)
    · rename_i id hid2
      split at h
      · exact absurd h (by simp)
      · rename_i pj hp
        split at h
        · exact absurd h (by simp)
        · rename_i p hp2
          split at h
          · exact absurd h (by simp)
          · rename_i lj hl
            split at h
            · exact absurd h (by simp)
            · rename_i loc hloc
              cases h
              cases j with
              | obj fs =>
                refine ⟨fs, rfl, ?_, ?_, lj, ?_, hloc⟩
                · rw [asInt_ok hid2] at hid; exact getField_ok_lookup hid
                · rw [asInt_ok hp2] at hp; exact getField_ok_lookup hp
                · exact getField_ok_lookup hl
              | _ => simp [Json.getField] at hid

theorem tile_from_json_ok {j : Json} {t : Tile} (h : Tile.from_json j = .ok t) :
    TileType.from_json j = .ok t.tile_type ∧
      ∃ cj, j.getField "coord" = .ok cj ∧ Coord.from_json cj = .ok t.coord := by
  unfold Tile.from_json at h
  split at h
  · exact absurd h (by simp)
  · rename_i tt htt
    split at h
    · exact absurd h (by simp)
    · rename_i cj hcj
      split at h
      · exact absurd h (by simp)
      · rename_i c hc
        cases h
        exact ⟨htt, cj, hcj, hc⟩

theorem decodeEach_ok {α : Type} {f : Json → Except DecodeError α}
    {xs : List Json} {ys : List α} (h : decodeEach f xs = .ok ys) :
    ys.length = xs.length ∧
      ∀ i (h1 : i < xs.length) (h2 : i < ys.length),
        f (xs.get ⟨i, h1⟩) = .ok (ys.get ⟨i, h2⟩) := by
  induction xs generalizing ys with
  | nil =>
    unfold decodeEach at h
    cases h
    exact ⟨rfl, fun i h1 _ => absurd h1 (by simp)⟩
  | cons x xs ih =>
    unfold decodeEach at h
    split at h
    · exact absurd h (by simp)
    · rename_i a ha
      split at h
      · exact absurd h (by simp)
      · rename_i as has
        cases h
        obtain ⟨hlen, helem⟩ := ih has
        refine ⟨by simp [hlen], ?_⟩
        intro i h1 h2
        cases i with
        | zero => simpa using ha
        | succ n =>
          simp only [List.get_cons_succ]
          exact helem n (by simpa using h1) (by simpa using h2)

theorem playerWorld_from_json_ok {j : Json} {w : PlayerWorld}
    (h : PlayerWorld.from_json j = .ok w) :
    ∃ fs usJ tsJ, j = .obj fs ∧
      fs.lookup "units" = some (.arr usJ) ∧
      fs.lookup "tiles" = some (.arr tsJ) ∧
      decodeEach PlayerWorld.decodeUnit usJ = .ok w.units ∧
      decodeEach Tile.from_json tsJ = .ok w.tiles := by
  unfold PlayerWorld.from_json at h
  split at h
  · exact absurd h (by simp)
  · rename_i usj hus
    split at h
    · exact absurd h (by simp)
    · rename_i us hus2
      split at h
      · exact absurd h (by simp)
      · rename_i units hunits
        split at h
        · exact absurd h (by simp)
        · rename_i tsj hts
          split at h
          · exact absurd h (by simp)
          · rename_i ts hts2
            split at h
            · exact absurd h (by simp)
            · rename_i tiles htiles
              cases h
              cases j with
              | obj fs =>
                refine ⟨fs, us, ts, rfl, ?_, ?_, hunits, htiles⟩
                · rw [asArr_ok hus2] at hus; exact getField_ok_lookup hus
                · rw [asArr_ok hts2] at hts; exact getField_ok_lookup hts
              | _ => simp [Json.getField] at hus

theorem playerInput_from_json_ok {j : Json} {inp : PlayerInput}
    (h : PlayerInput.from_json j = .ok inp) :
    ∃ fs, j = .obj fs ∧
      fs.lookup "player_id" = some (.num inp.player_id) ∧
      fs.lookup "turn" = some (.num inp.turn) ∧
      (∃ wj, fs.lookup "world" = some wj ∧
        PlayerWorld.from_json wj = .ok inp.player_world) ∧
      fs.lookup "memory" = some inp.memory := by
  unfold PlayerInput.from_json at h
  split at h
  · exact absurd h (by simp)
  · rename_i pidj hpid
    split at h
    · exact absurd h (by simp)
    · rename_i pid hpid2
      split at h
      · exact absurd h (by simp)
      · rename_i tj ht
        split at h
        · exact absurd h (by simp)
        · rename_i t ht2
          split at h
          · exact absurd h (by simp)
          · rename_i wj hw
            split at h
            · exact absurd h (by simp)
            · rename_i w hw2
              split at h
              · exact absurd h (by simp)
              · rename_i mem hmem
                cases h
                cases j with
                | obj fs =>
                  refine ⟨fs, rfl, ?_, ?_, ⟨wj, ?_, hw2⟩, ?_⟩
                  · rw [asInt_ok hpid2] at hpid; exact getField_ok_lookup hpid
                  · rw [asInt_ok ht2] at ht; exact getField_ok_lookup ht
                  · exact getField_ok_lookup hw
                  · exact getField_ok_lookup hmem
                | _ => simp [Json.getField] at hpid

theorem isProtocolLine_head_ne {l : String} {c : Char} {cs : List Char}
    (hd : l.data = c :: cs) (hc : c ≠ '_') : isProtocolLine l = false := by
  unfold isProtocolLine
  rw [hd, Bool.eq_false_iff]
  intro hpre
  rw [List.isPrefixOf_iff_prefix] at hpre
  have hs : sentinel.data = '_' :: "_mlr_output:".data := rfl
  rw [hs, List.cons_prefix_cons] at hpre
  exact hc hpre.1.symm

theorem isProtocolLine_sentinel_append (s : String) :
    isProtocolLine (sentinel ++ s) = true := by
  unfold isProtocolLine
  rw [String.data_append, List.isPrefixOf_iff_prefix]
  exact List.prefix_append _ _

theorem exists_head_append (s t : String) {c : Char}
    (h : ∃ cs, s.data = c :: cs) : ∃ cs, (s ++ t).data = c :: cs := by
  obtain ⟨cs, hcs⟩ := h
  exact ⟨cs ++ t.data, by rw [String.data_append, hcs]; rfl⟩

theorem playerInput_pyRepr_head (i : PlayerInput) :
    ∃ cs, i.pyRepr.data = 'P' :: cs := by
  unfold PlayerInput.pyRepr
  repeat' apply exists_head_append
  exact ⟨_, rfl⟩

theorem playerOutput_to_json_head (o : PlayerOutput) :
    ∃ cs, o.to_json.data = '\x7b' :: cs := by
  unfold PlayerOutput.to_json Json.dumps
  repeat' apply exists_head_append
  exact ⟨_, rfl⟩

theorem playerInput_pyRepr_not_protocol (i : PlayerInput) :
    isProtocolLine i.pyRepr = false := by
  obtain ⟨cs, hcs⟩ := playerInput_pyRepr_head i
  exact isProtocolLine_head_ne hcs (by decide)

theorem playerOutput_to_json_not_protocol (o : PlayerOutput) :
    isProtocolLine o.to_json = false := by
  obtain ⟨cs, hcs⟩ := playerOutput_to_json_head o
  exact isProtocolLine_head_ne hcs (by decide)

/-! ## Claims -/

/-- C1: at the failing input — a `PlayerInput` with `player_id = 1` whose
world holds the single unit `Unit(id=5, player=1)` — `get_my_units()`
returns the empty list even though the unit's `player` field equals the
input's `player_id`: the source filter compares the unit's `id` (not its
`player` field) against `player_id`, contradicting the claim, the spec's
ownership-filter property and the method's own docstring. -/
theorem C1_get_my_units_filters_by_id_not_player :
    (PlayerInput.mk 1 0 (PlayerWorld.mk [⟨5, 1, ⟨0, 0⟩⟩] []) .null).get_my_units = [] ∧
    ((PlayerWorld.mk [⟨5, 1, ⟨0, 0⟩⟩] []).units.filter
      (fun u => u.player == (1 : Int))) = [⟨5, 1, ⟨0, 0⟩⟩] ∧
    (PlayerInput.mk 5 0 (PlayerWorld.mk [⟨5, 1, ⟨0, 0⟩⟩] []) .null).get_my_units =
      [⟨5, 1, ⟨0, 0⟩⟩] := by
  refine ⟨rfl, rfl, rfl⟩

/-- C2 counterexample: constructing a `PlayerOutput` with the
JSON-representable memory value `0` and encoding it serializes the memory
field as `{}` (the constructor replaced the falsy value), not as `0`. -/
theorem C2_memory_not_verbatim_counterexample :
    (PlayerOutput.init [] (.num 0)).to_json =
      "\x7b\"actions\": [], \"memory\": \x7b\x7d\x7d" ∧
    (PlayerOutput.init [] (.num 0)).to_json ≠
      "\x7b\"actions\": [], \"memory\": 0\x7d" := by
  exact ⟨rfl, by decide⟩

/-- C2 (amended): for every `PlayerOutput` constructed with a TRUTHY
memory value `m`, encoding serializes the memory field as exactly `m`;
a falsy `m` (`None`, `false`, `0`, `""`, `[]`, `{}`) is replaced by the
empty object at construction time. -/
theorem C2_truthy_memory_verbatim (actions : List PlayerAction) (m : Json)
    (h : m.isTruthy = true) :
    (PlayerOutput.init actions m).to_json =
      Json.dumps (.obj [("actions", .arr (actions.map PlayerAction.serialize)),
                        ("memory", m)]) := by
  simp [PlayerOutput.init, PlayerOutput.to_json, h]

theorem C2_truthy_memory_verbatim_witness :
    (Json.num 7).isTruthy = true ∧
    (PlayerOutput.init [] (.num 7)).to_json =
      Json.dumps (.obj [("actions", .arr (([] : List PlayerAction).map PlayerAction.serialize)),
                        ("memory", .num 7)]) :=
  ⟨rfl, C2_truthy_memory_verbatim [] (.num 7) rfl⟩

/-- C3: decoding a `TileType` from a tile object carrying any `"type"`
tag never fails; `"wall"`, `"floor"`, `"exit"` map to the respective
members, and every other tag value maps to `WALL`. -/
theorem C3_tiletype_decode_never_fails (fs : List (String × Json)) (v : Json)
    (h : fs.lookup "type" = some v) :
    (∃ tt, TileType.from_json (.obj fs) = .ok tt) ∧
    (v = .str "wall" → TileType.from_json (.obj fs) = .ok .WALL) ∧
    (v = .str "floor" → TileType.from_json (.obj fs) = .ok .FLOOR) ∧
    (v = .str "exit" → TileType.from_json (.obj fs) = .ok .EXIT) ∧
    (v.eqTag "wall" = false → v.eqTag "floor" = false → v.eqTag "exit" = false →
      TileType.from_json (.obj fs) = .ok .WALL) := by
  have hred : TileType.from_json (.obj fs) =
      (if v.eqTag "wall" then .ok .WALL
       else if v.eqTag "floor" then .ok .FLOOR
       else if v.eqTag "exit" then .ok .EXIT
       else .ok .WALL) := by
    unfold TileType.from_json
    rw [getField_obj_ok h]
  rw [hred]
  refine ⟨?_, ?_, ?_, ?_, ?_⟩
  · split
    · exact ⟨_, rfl⟩
    · split
      · exact ⟨_, rfl⟩
      · split
        · exact ⟨_, rfl⟩
        · exact ⟨_, rfl⟩
  · intro hv; subst hv; simp [Json.eqTag]
  · intro hv; subst hv; simp [Json.eqTag]
  · intro hv; subst hv; simp [Json.eqTag]
  · intro h1 h2 h3
    simp [h1, h2, h3]

theorem C3_tiletype_decode_never_fails_witness :
    TileType.from_json (.obj [("type", .str "lava")]) = .ok .WALL :=
  (C3_tiletype_decode_never_fails [("type", .str "lava")] (.str "lava")
    rfl).2.2.2.2 rfl rfl rfl

/-- C6: `Coord` decodes from a 2-element positional array — `[x, y]`
yields `Coord(x, y)` for all integers — while a field-keyed object in
place of the array always fails to decode. -/
theorem C6_coord_positional_array_not_object :
    (∀ x y : Int, Coord.from_json (.arr [.num x, .num y]) = .ok ⟨x, y⟩) ∧
    (∀ (fs : List (String × Json)) (c : Coord), Coord.from_json (.obj fs) ≠ .ok c) := by
  constructor
  · intro x y
    rfl
  · intro fs c hcon
    simp [Coord.from_json, Json.getIdx] at hcon

theorem C6_coord_positional_array_not_object_witness :
    Coord.from_json (.arr [.num 3, .num 4]) = .ok ⟨3, 4⟩ ∧
    Coord.from_json (.obj [("x", .num 3), ("y", .num 4)]) ≠ .ok ⟨3, 4⟩ :=
  ⟨C6_coord_positional_array_not_object.1 3 4,
   C6_coord_positional_array_not_object.2 [("x", .num 3), ("y", .num 4)] ⟨3, 4⟩⟩

/-- C4: at the spec's end-to-end input line with the move-every-owned-unit-Left
turn function, the driver emits `__mlr_output:{"actions": [], "memory": {}}`:
the action list is EMPTY because `get_my_units` compares unit `id` (5)
against `player_id` (1), and `json.dumps` inserts its default `", "`/`": "`
separators — not the compact single-action line the claim states. -/
theorem C4_driver_actual_output_on_scenario :
    do_turn moveLeftTurn false [some exampleInputLine] =
      .ok ["__mlr_output:\x7b\"actions\": [], \"memory\": \x7b\x7d\x7d"] ∧
    ("__mlr_output:\x7b\"actions\": [], \"memory\": \x7b\x7d\x7d" : String) ≠
      "__mlr_output:\x7b\"actions\":[\x7b\"action\":\"move\",\"unit\":5,\"direction\":\"left\"\x7d],\"memory\":\x7b\x7d\x7d" := by
  exact ⟨rfl, by decide⟩

/-- C5: decoding fails on a line that is not valid JSON, and on a parsed
object missing any of the required fields `player_id`, `turn`, `world`,
`world.units`, `world.tiles`, a unit's `location`, or the two location
coordinates; in particular the spec's `{"turn": 1, "world": {...},
"memory": null}` example (no `player_id`) fails. -/
theorem C5_missing_required_fields_fail :
    decode none = .error .invalidJson ∧
    (∀ (fs : List (String × Json)) (inp : PlayerInput), fs.lookup "player_id" = none →
      PlayerInput.from_json (.obj fs) ≠ .ok inp) ∧
    (∀ (fs : List (String × Json)) (inp : PlayerInput), fs.lookup "turn" = none →
      PlayerInput.from_json (.obj fs) ≠ .ok inp) ∧
    (∀ (fs : List (String × Json)) (inp : PlayerInput), fs.lookup "world" = none →
      PlayerInput.from_json (.obj fs) ≠ .ok inp) ∧
    (∀ (fs : List (String × Json)) (w : PlayerWorld), fs.lookup "units" = none →
      PlayerWorld.from_json (.obj fs) ≠ .ok w) ∧
    (∀ (fs : List (String × Json)) (w : PlayerWorld), fs.lookup "tiles" = none →
      PlayerWorld.from_json (.obj fs) ≠ .ok w) ∧
    (∀ (fs : List (String × Json)) (u : Unit), fs.lookup "location" = none →
      PlayerWorld.decodeUnit (.obj fs) ≠ .ok u) ∧
    (∀ (xs : List Json) (c : Coord), xs.length ≤ 1 →
      Coord.from_json (.arr xs) ≠ .ok c) ∧
    (∀ inp, PlayerInput.from_json
        (.obj [("turn", .num 1),
               ("world", .obj [("units", .arr []), ("tiles", .arr [])]),
               ("memory", .null)]) ≠ .ok inp) := by
  refine ⟨rfl, ?_, ?_, ?_, ?_, ?_, ?_, ?_, ?_⟩
  · intro fs inp h hcon
    obtain ⟨fs', hj, hpid, -⟩ := playerInput_from_json_ok hcon
    injection hj with hj
    subst hj
    rw [h] at hpid
    exact Option.noConfusion hpid
  · intro fs inp h hcon
    obtain ⟨fs', hj, -, ht, -⟩ := playerInput_from_json_ok hcon
    injection hj with hj
    subst hj
    rw [h] at ht
    exact Option.noConfusion ht
  · intro fs inp h hcon
    obtain ⟨fs', hj, -, -, ⟨wj, hw, -⟩, -⟩ := playerInput_from_json_ok hcon
    injection hj with hj
    subst hj
    rw [h] at hw
    exact Option.noConfusion hw
  · intro fs w h hcon
    obtain ⟨fs', usJ, tsJ, hj, hus, -⟩ := playerWorld_from_json_ok hcon
    injection hj with hj
    subst hj
    rw [h] at hus
    exact Option.noConfusion hus
  · intro fs w h hcon
    obtain ⟨fs', usJ, tsJ, hj, -, hts, -⟩ := playerWorld_from_json_ok hcon
    injection hj with hj
    subst hj
    rw [h] at hts
    exact Option.noConfusion hts
  · intro fs u h hcon
    obtain ⟨fs', hj, -, -, lj, hl, -⟩ := decodeUnit_ok hcon
    injection hj with hj
    subst hj
    rw [h] at hl
    exact Option.noConfusion hl
  · intro xs c h hcon
    obtain ⟨-, h1⟩ := coord_from_json_ok hcon
    have hn : xs[1]? = none := List.getElem?_eq_none h
    simp [Json.getIdx, hn] at h1
  · intro inp hcon
    rw [show PlayerInput.from_json
        (.obj [("turn", .num 1),
               ("world", .obj [("units", .arr []), ("tiles", .arr [])]),
               ("memory", .null)]) = .error (.keyError "player_id") from rfl] at hcon
    exact Except.noConfusion hcon

theorem C5_missing_required_fields_fail_witness :
    PlayerInput.from_json (.obj [("turn", .num 1)]) ≠ .ok exampleDecodedInput :=
  C5_missing_required_fields_fail.2.1 [("turn", .num 1)] exampleDecodedInput rfl

/-- C7: whenever the first input line decodes, the driver's stdout contains
exactly one sentinel-prefixed protocol line, and it is the literal
`__mlr_output:` followed immediately by the codec's `to_json` text for the
turn function's `PlayerOutput`. -/
theorem C7_sentinel_framing (fn : PlayerInput → PlayerOutput) (debug : Bool)
    (line : Option Json) (rest : List (Option Json)) (inp : PlayerInput)
    (lines : List String)
    (hdec : decode line = .ok inp)
    (hrun : do_turn fn debug (line :: rest) = .ok lines) :
    lines.filter (fun l => isProtocolLine l) = [sentinel ++ (fn inp).to_json] := by
  simp only [do_turn] at hrun
  split at hrun
  · exact absurd hrun (by simp)
  · rename_i inp' heq
    rw [hdec] at heq
    injection heq with heq
    subst heq
    injection hrun with hrun
    subst hrun
    cases debug <;>
      simp [List.filter_append, List.filter, playerInput_pyRepr_not_protocol,
        playerOutput_to_json_not_protocol, isProtocolLine_sentinel_append]

theorem C7_sentinel_framing_witness :
    (["__mlr_output:\x7b\"actions\": [], \"memory\": \x7b\x7d\x7d"].filter
      (fun l => isProtocolLine l)) =
      [sentinel ++ (moveLeftTurn exampleDecodedInput).to_json] :=
  C7_sentinel_framing moveLeftTurn false (some exampleInputLine) [] exampleDecodedInput
    ["__mlr_output:\x7b\"actions\": [], \"memory\": \x7b\x7d\x7d"] rfl rfl

/-- C8: the driver processes at most one turn per invocation — any
successful run emits at most one sentinel-prefixed line, an empty input
stream yields a graceful success with no output at all, and the lines
after the first are never even examined. -/
theorem C8_single_turn_driver :
    (∀ (fn : PlayerInput → PlayerOutput) (debug : Bool) (stdin : List (Option Json))
       (lines : List String), do_turn fn debug stdin = .ok lines →
         (lines.filter (fun l => isProtocolLine l)).length ≤ 1) ∧
    (∀ (fn : PlayerInput → PlayerOutput) (debug : Bool),
      do_turn fn debug [] = .ok ([] : List String)) ∧
    (∀ (fn : PlayerInput → PlayerOutput) (debug : Bool) (line : Option Json)
       (rest : List (Option Json)),
      do_turn fn debug (line :: rest) = do_turn fn debug [line]) := by
  refine ⟨?_, fun _ _ => rfl, fun _ _ _ _ => rfl⟩
  intro fn debug stdin lines h
  cases stdin with
  | nil =>
    simp only [do_turn] at h
    injection h with h
    subst h
    simp
  | cons line rest =>
    simp only [do_turn] at h
    split at h
    · exact absurd h (by simp)
    · injection h with h
      subst h
      cases debug <;>
        simp [List.filter_append, List.filter, playerInput_pyRepr_not_protocol,
          playerOutput_to_json_not_protocol, isProtocolLine_sentinel_append]

theorem C8_single_turn_driver_witness :
    ((["__mlr_output:\x7b\"actions\": [], \"memory\": \x7b\x7d\x7d"] : List String).filter
      (fun l => isProtocolLine l)).length ≤ 1 :=
  C8_single_turn_driver.1 moveLeftTurn false [some exampleInputLine]
    ["__mlr_output:\x7b\"actions\": [], \"memory\": \x7b\x7d\x7d"] rfl

/-- C9: `encode` serializes `actions` as an ordered sequence — element `i`
of the serialized array is the serialization of action `i` — and each
action becomes `{"action": tag, "unit": unit_id, "direction": tag}` with
the enum tags rendered lowercase. -/
theorem C9_encode_actions_ordered_lowercase :
    (∀ o : PlayerOutput,
      o.to_json = Json.dumps (.obj [("actions", .arr (o.actions.map PlayerAction.serialize)),
                                    ("memory", o.memory)])) ∧
    (∀ a : PlayerAction,
      a.serialize = .obj [("action", .str a.type.value), ("unit", .num a.unit_id),
                          ("direction", .str a.direction.value)]) ∧
    ActionType.value .MOVE = "move" ∧
    Direction.value .LEFT = "left" ∧ Direction.value .RIGHT = "right" ∧
    Direction.value .UP = "up" ∧ Direction.value .DOWN = "down" ∧
    (∀ (o : PlayerOutput) (i : Nat) (h1 : i < o.actions.length)
       (h2 : i < (o.actions.map PlayerAction.serialize).length),
      (o.actions.map PlayerAction.serialize).get ⟨i, h2⟩ =
        (o.actions.get ⟨i, h1⟩).serialize) := by
  refine ⟨fun _ => rfl, fun _ => rfl, rfl, rfl, rfl, rfl, rfl, ?_⟩
  intro o i h1 h2
  simp [List.get_eq_getElem, List.getElem_map]

theorem C9_encode_actions_ordered_lowercase_witness :
    ((PlayerOutput.mk [⟨5, .LEFT, .MOVE⟩] .null).actions.map PlayerAction.serialize).get
        ⟨0, by decide⟩ =
      ((PlayerOutput.mk [⟨5, .LEFT, .MOVE⟩] .null).actions.get ⟨0, by decide⟩).serialize :=
  C9_encode_actions_ordered_lowercase.2.2.2.2.2.2.2
    (PlayerOutput.mk [⟨5, .LEFT, .MOVE⟩] .null) 0 (by decide) (by decide)

/-- C10: a successful `PlayerWorld.from_json` preserves the wire structure
exactly — decoded `units`/`tiles` have the wire arrays' lengths with
element `i` decoded from wire element `i`; each decoded unit carries the
wire object's `id` and `player` values and its `location` array's first
and second elements as `Coord` `x`/`y`; each decoded tile carries its
`coord` array converted the same way. -/
theorem C10_decode_preserves_wire_structure :
    (∀ (j : Json) (w : PlayerWorld), PlayerWorld.from_json j = .ok w →
      ∃ fs usJ tsJ, j = .obj fs ∧
        fs.lookup "units" = some (.arr usJ) ∧
        fs.lookup "tiles" = some (.arr tsJ) ∧
        w.units.length = usJ.length ∧ w.tiles.length = tsJ.length ∧
        (∀ i (h1 : i < usJ.length) (h2 : i < w.units.length),
          PlayerWorld.decodeUnit (usJ.get ⟨i, h1⟩) = .ok (w.units.get ⟨i, h2⟩)) ∧
        (∀ i (h1 : i < tsJ.length) (h2 : i < w.tiles.length),
          Tile.from_json (tsJ.get ⟨i, h1⟩) = .ok (w.tiles.get ⟨i, h2⟩))) ∧
    (∀ (uj : Json) (u : Unit), PlayerWorld.decodeUnit uj = .ok u →
      ∃ ufs, uj = .obj ufs ∧
        ufs.lookup "id" = some (.num u.id) ∧
        ufs.lookup "player" = some (.num u.player) ∧
        ∃ lj, ufs.lookup "location" = some lj ∧
          lj.getIdx 0 = .ok (.num u.location.x) ∧
          lj.getIdx 1 = .ok (.num u.location.y)) ∧
    (∀ (tj : Json) (t : Tile), Tile.from_json tj = .ok t →
      TileType.from_json tj = .ok t.tile_type ∧
      ∃ cj, tj.getField "coord" = .ok cj ∧
        cj.getIdx 0 = .ok (.num t.coord.x) ∧
        cj.getIdx 1 = .ok (.num t.coord.y)) := by
  refine ⟨?_, ?_, ?_⟩
  · intro j w h
    obtain ⟨fs, usJ, tsJ, hj, hus, hts, hdu, hdt⟩ := playerWorld_from_json_ok h
    obtain ⟨hulen, huelem⟩ := decodeEach_ok hdu
    obtain ⟨htlen, htelem⟩ := decodeEach_ok hdt
    exact ⟨fs, usJ, tsJ, hj, hus, hts, hulen, htlen, huelem, htelem⟩
  · intro uj u hu
    obtain ⟨ufs, huj, hid, hp, lj, hl, hcoord⟩ := decodeUnit_ok hu
    obtain ⟨h0, h1⟩ := coord_from_json_ok hcoord
    exact ⟨ufs, huj, hid, hp, lj, hl, h0, h1⟩
  · intro tj t ht
    obtain ⟨htt, cj, hcj, hcoord⟩ := tile_from_json_ok ht
    obtain ⟨h0, h1⟩ := coord_from_json_ok hcoord
    exact ⟨htt, cj, hcj, h0, h1⟩

theorem C10_decode_preserves_wire_structure_witness :
    ∃ ufs, (Json.obj [("id", Json.num 5), ("player", Json.num 1),
              ("location", Json.arr [Json.num 0, Json.num 0])]) = Json.obj ufs ∧
      ufs.lookup "id" = some (Json.num 5) ∧
      ufs.lookup "player" = some (Json.num 1) ∧
      ∃ lj, ufs.lookup "location" = some lj ∧
        lj.getIdx 0 = .ok (Json.num 0) ∧
        lj.getIdx 1 = .ok (Json.num 0) :=
  C10_decode_preserves_wire_structure.2.1
    (Json.obj [("id", Json.num 5), ("player", Json.num 1),
               ("location", Json.arr [Json.num 0, Json.num 0])])
    (Unit.mk 5 1 ⟨0, 0⟩) rfl

end MLR
